import Mathlib

/-!
Verification development for the `simpler` host-device runtime orchestrator.

The development shallowly embeds the pieces of the runtime that the stated
properties are about:

* the simulated tick counter `get_sys_cnt_aicpu`
  (src/platform/a2a3sim/aicpu/device_time.cpp);
* the `DeviceRunner` session state and its lifecycle operations
  (src/platform/a2a3/host/device_runner.h) — the header with the field
  declarations and contracts is part of the visible sources while the method
  bodies are not, so those bodies are modelled from the specification, as
  marked in the individual doc comments;
* the C API entry points (src/platform/a2a3sim/host/pto_runtime_c_api.cpp),
  whose null checks and try/catch structure are embedded directly from the
  source, with the externally defined bodies kept as parameters;
* the AICPU kernel-server entry points (src/platform/a2a3/aicpu/kernel.cpp).

C++ exceptions are modelled with `Except Unit`: a body that may throw is a
function returning `Except Unit α` together with the state it leaves behind,
and a `catch (...)` clause is the corresponding `match` on that result.
-/

namespace Simpler

/-! ## Simulated device time (src/platform/a2a3sim/aicpu/device_time.cpp) -/

/-- Nanoseconds per second, `std::nano::den` in the source. -/
def kNsPerSec : Nat := 1000000000

/-- Range of an unsigned 64-bit machine integer. -/
def U64 : Nat := 2 ^ 64

/-- Tick conversion of `get_sys_cnt_aicpu` from
src/platform/a2a3sim/aicpu/device_time.cpp, in exact (unbounded) arithmetic:
the elapsed nanoseconds are split into whole seconds and a remainder, each
converted to ticks at the platform counter frequency
(`PLATFORM_PROF_SYS_CNT_FREQ`, kept as the parameter `freq` since
platform_config.h is outside the visible sources). -/
def get_sys_cnt_aicpu (freq elapsed_ns : Nat) : Nat :=
  let seconds := elapsed_ns / kNsPerSec
  let remaining_ns := elapsed_ns % kNsPerSec
  seconds * freq + (remaining_ns * freq) / kNsPerSec

/-- The same computation as `get_sys_cnt_aicpu` but carried out in unsigned
64-bit machine arithmetic: every multiplication and addition is reduced
modulo `2 ^ 64`, exactly as the `uint64_t` operations of the source. -/
def get_sys_cnt_aicpu64 (freq elapsed_ns : Nat) : Nat :=
  let ns := elapsed_ns % U64
  let seconds := ns / kNsPerSec
  let remaining_ns := ns % kNsPerSec
  (seconds * freq % U64 + (remaining_ns * freq % U64) / kNsPerSec) % U64

/-! ## Device memory allocator bookkeeping -/

/-- Device-memory allocator bookkeeping. `host/memory_allocator.h` is outside
the visible sources; modelled from the spec (§4.1, §4.5): the allocator
tracks live allocations, split here into kernel-binary allocations (released
by `clean_cache`) and all other allocations, and hands out addresses from a
monotone counter whose start is a nonzero base so the failure sentinel `0` is
never a valid address. -/
structure MemoryAllocator where
  next_addr : Nat := 4096
  kernel_allocs : List Nat := []
  other_allocs : List Nat := []
deriving DecidableEq

/-- Modelled from the spec: allocation of device memory for a kernel binary
(spec §4.1/§4.2). Returns the fresh address and records it among the
kernel-binary allocations. -/
def MemoryAllocator.alloc_kernel (m : MemoryAllocator) (bytes : Nat) :
    Nat × MemoryAllocator :=
  (m.next_addr,
    { m with
      next_addr := m.next_addr + max bytes 1
      kernel_allocs := m.next_addr :: m.kernel_allocs })

/-- Modelled from the spec: allocation of non-kernel device memory such as the
per-run work descriptor (spec §4.1, §4.5 step 3). -/
def MemoryAllocator.alloc_other (m : MemoryAllocator) (bytes : Nat) :
    Nat × MemoryAllocator :=
  (m.next_addr,
    { m with
      next_addr := m.next_addr + max bytes 1
      other_allocs := m.next_addr :: m.other_allocs })

/-- Modelled from the spec: release of a non-kernel allocation (spec §4.1). -/
def MemoryAllocator.free_other (m : MemoryAllocator) (addr : Nat) :
    MemoryAllocator :=
  { m with other_allocs := m.other_allocs.erase addr }

/-! ## DeviceRunner session state (src/platform/a2a3/host/device_runner.h) -/

/-- Session state of the `DeviceRunner` singleton, following the private
fields declared in src/platform/a2a3/host/device_runner.h: `device_id_`,
`block_dim_`, `worker_count_`, the two streams, `binaries_loaded_`,
`func_id_to_addr_`, and the memory allocator. The spec (§3 "Session state")
additionally lists "whether the device is set" as its own item of session
state, kept here as `device_set`. The counters `device_set_count` and
`queue_create_count` record the observable number of device selections and
queue creations performed, and `copy_count` the number of kernel-binary
device copies, so that "exactly one" effects can be stated. `last_runtime`
is the externally visible last-session reference that
`finalize` must clear (comment at pto_runtime_c_api.cpp line 204). -/
structure DeviceRunner where
  device_id : Int := -1
  device_set : Bool := false
  block_dim : Int := 0
  worker_count : Nat := 0
  device_set_count : Nat := 0
  queue_create_count : Nat := 0
  stream_aicpu : Option Nat := none
  stream_aicore : Option Nat := none
  binaries_loaded : Bool := false
  func_id_to_addr : List (Int × Nat) := []
  mem_alloc : MemoryAllocator := {}
  copy_count : Nat := 0
  last_runtime : Option Nat := none
deriving DecidableEq

/-- Modelled from the spec: `DeviceRunner::ensure_device_set` (declared at
device_runner.h lines 320-331; the body is outside the visible sources).
Spec §4.5: "idempotent; selects the device and creates the two execution
queues. Callable multiple times; only the first call has effect"; the header
comment: only performs the device selection and creates the AICPU and AICore
streams. -/
def DeviceRunner.ensure_device_set (s : DeviceRunner) (device_id : Int) :
    Int × DeviceRunner :=
  if s.device_set then (0, s)
  else
    (0, { s with
      device_id := device_id
      device_set := true
      device_set_count := s.device_set_count + 1
      queue_create_count := s.queue_create_count + 1
      stream_aicpu := some 1
      stream_aicore := some 2 })

/-- Modelled from the spec: `DeviceRunner::upload_kernel_binary` (declared at
device_runner.h lines 299-318; the body is outside the visible sources).
Header contract: `ensure_device_set()` must have been called before; on a
`func_id` already uploaded the cached address is returned without
re-uploading; otherwise device memory is allocated, the binary copied, the
address cached, and returned; `0` is returned on error. Spec §4.2: the cached
address is returned regardless of whether the supplied bytes differ from the
originally uploaded content. -/
def DeviceRunner.upload_kernel_binary (s : DeviceRunner) (func_id : Int)
    (bin_data : List Nat) : Nat × DeviceRunner :=
  if s.device_set = false then (0, s)
  else
    match s.func_id_to_addr.lookup func_id with
    | some addr => (addr, s)
    | none =>
      let r := s.mem_alloc.alloc_kernel bin_data.length
      (r.1,
        { s with
          mem_alloc := r.2
          func_id_to_addr := (func_id, r.1) :: s.func_id_to_addr
          copy_count := s.copy_count + 1 })

/-- Modelled from the spec: `DeviceRunner::clean_cache` (declared at
device_runner.h lines 252-261; the body is outside the visible sources).
Header comment: frees kernel memory from the global memory allocator and
clears the kernel address cache, preserving device resources for reuse.
Spec §4.5: also clears the "binaries loaded" flag and does not touch
device-set state or execution queues. -/
def DeviceRunner.clean_cache (s : DeviceRunner) : Int × DeviceRunner :=
  (0, { s with
    func_id_to_addr := []
    binaries_loaded := false
    mem_alloc := { s.mem_alloc with kernel_allocs := [] } })

/-- Modelled from the spec: `DeviceRunner::finalize` (declared at
device_runner.h lines 263-271; the body is outside the visible sources).
Spec §4.5: full teardown — frees all session memory, destroys the execution
queues, resets all state to `Uninitialized`, and nulls out the externally
visible last-session reference. In the model this is a reset to the initial
state. -/
def DeviceRunner.finalize (_s : DeviceRunner) : Int × DeviceRunner :=
  (0, {})

/-! ## The run workflow and its issue order -/

/-- Observable steps of `DeviceRunner::run`, in the vocabulary of the header
comment at device_runner.h lines 192-218 and spec §4.5. -/
inductive RunEvent where
  | set_device
  | create_queues
  | load_binaries
  | init_handshake
  | copy_work_descriptor
  | launch_ctrl_init
  | launch_ctrl_main
  | launch_compute
  | poll_telemetry
  | sync_queues
  | free_work_descriptor
deriving DecidableEq

/-- Lazy-initialization events of a `run`: device selection and queue
creation happen only when the device was not yet set, and the control-core
shared object is loaded only when the binaries-loaded flag was not yet set
(spec §4.5, `ensure_device_set` / `ensure_binaries_loaded`). -/
def run_setup_events (device_was_set : Bool) (binaries_were_loaded : Bool) :
    List RunEvent :=
  (if device_was_set then [] else [RunEvent.set_device, RunEvent.create_queues]) ++
    (if binaries_were_loaded then [] else [RunEvent.load_binaries])

/-- Modelled from the spec: `DeviceRunner::run` (declared at device_runner.h
lines 192-218; the body is outside the visible sources). The header comment
and spec §4.5 give the step order: (1) lazy initialization, (2) handshake
buffer initialization, (3) transfer of the work descriptor to device memory,
(4) launch of the control-core "init" kernel, (5) launch of the control-core
"main" kernel, repeated `launch_aicpu_num` times, (6) launch of the
compute-core kernel, (7) telemetry polling, (8) queue synchronization, and
(9) release of the transient work-descriptor memory. The returned trace
lists the steps in issue order; the simulated backend ignores the binary
payloads (pto_runtime_c_api.cpp line 174). -/
def DeviceRunner.run (s : DeviceRunner) (runtime : Nat) (block_dim device_id : Int)
    (_aicpu_so_binary _aicore_kernel_binary : List Nat) (launch_aicpu_num : Nat) :
    Int × DeviceRunner × List RunEvent :=
  let s1 := (s.ensure_device_set device_id).2
  let setup := run_setup_events s.device_set s1.binaries_loaded
  let s2 :=
    { s1 with
      binaries_loaded := true
      block_dim := block_dim
      worker_count := launch_aicpu_num
      last_runtime := some runtime }
  let a := s2.mem_alloc.alloc_other 1
  let s3 := { s2 with mem_alloc := a.2 }
  let s4 := { s3 with mem_alloc := s3.mem_alloc.free_other a.1 }
  (0, s4,
    setup ++
      [RunEvent.init_handshake, RunEvent.copy_work_descriptor,
        RunEvent.launch_ctrl_init] ++
      List.replicate launch_aicpu_num RunEvent.launch_ctrl_main ++
      [RunEvent.launch_compute, RunEvent.poll_telemetry, RunEvent.sync_queues,
        RunEvent.free_work_descriptor])

/-- The event trace issued by one invocation of `DeviceRunner::run`. -/
def run_trace (s : DeviceRunner) (runtime : Nat) (block_dim device_id : Int)
    (aicpu_so_binary aicore_kernel_binary : List Nat) (launch_aicpu_num : Nat) :
    List RunEvent :=
  (s.run runtime block_dim device_id aicpu_so_binary aicore_kernel_binary
    launch_aicpu_num).2.2

/-- The session state left behind by one invocation of `DeviceRunner::run`. -/
def run_state (s : DeviceRunner) (runtime : Nat) (block_dim device_id : Int)
    (aicpu_so_binary aicore_kernel_binary : List Nat) (launch_aicpu_num : Nat) :
    DeviceRunner :=
  (s.run runtime block_dim device_id aicpu_so_binary aicore_kernel_binary
    launch_aicpu_num).2.1

/-- Every occurrence of `a` in the trace is issued strictly before every
occurrence of `b`. -/
def allBefore (tr : List RunEvent) (a b : RunEvent) : Prop :=
  ∀ i j (hi : i < tr.length) (hj : j < tr.length),
    tr.get ⟨i, hi⟩ = a → tr.get ⟨j, hj⟩ = b → i < j

/-! ## C API entry points (src/platform/a2a3sim/host/pto_runtime_c_api.cpp)

Each wrapper is embedded with its null checks and its try/catch structure
taken verbatim from the source. The part of the body that lives in another
translation unit (`init_runtime_impl`, the `DeviceRunner` methods on the
hardware build, `Runtime::record_tensor_pair`) is a parameter `body` acting
on an abstract state `σ`; it returns `Except.error` when it raises a C++
exception, together with the state its partial effects leave behind. -/

/-- `init_runtime` (pto_runtime_c_api.cpp lines 54-98): a null session
pointer fails with -1 before anything runs; otherwise the construction and
`init_runtime_impl` body runs under `try`, and `catch (...)` yields -1. -/
def init_runtime {σ : Type} (runtime : Option Nat)
    (body : σ → Except Unit Int × σ) (s : σ) : Except Unit Int × σ :=
  match runtime with
  | none => (Except.ok (-1), s)
  | some _ =>
    match body s with
    | (Except.ok rc, s1) => (Except.ok rc, s1)
    | (Except.error _, s1) => (Except.ok (-1), s1)

/-- `device_malloc` (pto_runtime_c_api.cpp lines 105-112): the allocation
body runs under `try`, and `catch (...)` returns the null pointer. -/
def device_malloc {σ : Type} (body : σ → Except Unit (Option Nat) × σ)
    (s : σ) : Except Unit (Option Nat) × σ :=
  match body s with
  | (Except.ok p, s1) => (Except.ok p, s1)
  | (Except.error _, s1) => (Except.ok none, s1)

/-- `device_free` (pto_runtime_c_api.cpp lines 114-124): a null pointer
returns immediately; otherwise the body runs under `try` and any error is
ignored by `catch (...)`. -/
def device_free {σ : Type} (dev_ptr : Option Nat)
    (body : σ → Except Unit Unit × σ) (s : σ) : Except Unit Unit × σ :=
  match dev_ptr with
  | none => (Except.ok (), s)
  | some _ =>
    match body s with
    | (Except.ok _, s1) => (Except.ok (), s1)
    | (Except.error _, s1) => (Except.ok (), s1)

/-- `copy_to_device` (pto_runtime_c_api.cpp lines 126-136): null device or
host pointer fails with -1 before anything runs; otherwise the copy body
runs under `try`, and `catch (...)` yields -1. -/
def copy_to_device {σ : Type} (dev_ptr host_ptr : Option Nat) (_size : Nat)
    (body : σ → Except Unit Int × σ) (s : σ) : Except Unit Int × σ :=
  match dev_ptr, host_ptr with
  | some _, some _ =>
    match body s with
    | (Except.ok rc, s1) => (Except.ok rc, s1)
    | (Except.error _, s1) => (Except.ok (-1), s1)
  | _, _ => (Except.ok (-1), s)

/-- `copy_from_device` (pto_runtime_c_api.cpp lines 138-148): null host or
device pointer fails with -1 before anything runs; otherwise the copy body
runs under `try`, and `catch (...)` yields -1. -/
def copy_from_device {σ : Type} (host_ptr dev_ptr : Option Nat) (_size : Nat)
    (body : σ → Except Unit Int × σ) (s : σ) : Except Unit Int × σ :=
  match host_ptr, dev_ptr with
  | some _, some _ =>
    match body s with
    | (Except.ok rc, s1) => (Except.ok rc, s1)
    | (Except.error _, s1) => (Except.ok (-1), s1)
  | _, _ => (Except.ok (-1), s)

/-- `upload_kernel_binary_wrapper` (pto_runtime_c_api.cpp lines 150-157):
the upload body runs under `try`, and `catch (...)` yields the failure
address 0. -/
def upload_kernel_binary_wrapper {σ : Type} (_func_id : Int)
    (body : σ → Except Unit Nat × σ) (s : σ) : Except Unit Nat × σ :=
  match body s with
  | (Except.ok addr, s1) => (Except.ok addr, s1)
  | (Except.error _, s1) => (Except.ok 0, s1)

/-- `launch_runtime` (pto_runtime_c_api.cpp lines 159-190): a null session
pointer fails with -1 before anything runs; otherwise the binary vectors are
built and `DeviceRunner::run` executes under `try`, with `catch (...)`
yielding -1. The body parameter stands for that call. -/
def launch_runtime {σ : Type} (runtime : Option Nat)
    (body : σ → Except Unit Int × σ) (s : σ) : Except Unit Int × σ :=
  match runtime with
  | none => (Except.ok (-1), s)
  | some _ =>
    match body s with
    | (Except.ok rc, s1) => (Except.ok rc, s1)
    | (Except.error _, s1) => (Except.ok (-1), s1)

/-- Steps of `finalize_runtime`, in source order
(pto_runtime_c_api.cpp lines 192-213). -/
inductive FinalizeEvent where
  | validate
  | clean_cache
  | runner_finalize
  | destruct_session
deriving DecidableEq

/-- `finalize_runtime` (pto_runtime_c_api.cpp lines 192-213), generalized
over the cleanup steps: a null session pointer fails with -1; otherwise,
under `try`, `validate_runtime_impl` runs (its result is the parameter
`validate_rc`, since runtimemaker.cpp is outside the visible sources), then
`clean` and `fin` run with their returned statuses discarded, then the
session destructor; the validation status is returned, and `catch (...)`
yields -1. -/
def finalize_runtime_with (runtime : Option Nat) (validate_rc : Except Unit Int)
    (clean fin : DeviceRunner → Int × DeviceRunner) (s : DeviceRunner) :
    Except Unit Int × DeviceRunner × List FinalizeEvent :=
  match runtime with
  | none => (Except.ok (-1), s, [])
  | some _ =>
    match validate_rc with
    | Except.error _ => (Except.ok (-1), s, [FinalizeEvent.validate])
    | Except.ok rc =>
      let s1 := (clean s).2
      let s2 := (fin s1).2
      (Except.ok rc, s2,
        [FinalizeEvent.validate, FinalizeEvent.clean_cache,
          FinalizeEvent.runner_finalize, FinalizeEvent.destruct_session])

/-- `finalize_runtime` with its actual cleanup steps
`DeviceRunner::clean_cache` and `DeviceRunner::finalize`. -/
def finalize_runtime (runtime : Option Nat) (validate_rc : Except Unit Int)
    (s : DeviceRunner) : Except Unit Int × DeviceRunner × List FinalizeEvent :=
  finalize_runtime_with runtime validate_rc DeviceRunner.clean_cache
    DeviceRunner.finalize s

/-- `set_device` (pto_runtime_c_api.cpp lines 215-218): unused in the
simulation, always 0. -/
def set_device (_device_id : Int) : Int := 0

/-- `enable_runtime_profiling` (pto_runtime_c_api.cpp lines 220-231): a null
session pointer fails with -1; otherwise the profiling flag of the session is set
to whether `enabled` is nonzero and 0 is returned. The second component is
the flag of the session afterwards. -/
def enable_runtime_profiling (runtime : Option Bool) (enabled : Int) :
    Int × Option Bool :=
  match runtime with
  | none => (-1, none)
  | some _ => (0, some (decide (enabled ≠ 0)))

/-- `record_tensor_pair` (pto_runtime_c_api.cpp lines 238-247): a null
session pointer returns immediately; otherwise `Runtime::record_tensor_pair`
runs with no surrounding try/catch, so its outcome — exception included —
reaches the caller unconverted. -/
def record_tensor_pair {σ : Type} (runtime : Option Nat)
    (body : σ → Except Unit Unit × σ) (s : σ) : Except Unit Unit × σ :=
  match runtime with
  | none => (Except.ok (), s)
  | some _ => body s

/-! ## AICPU kernel-server entry points (src/platform/a2a3/aicpu/kernel.cpp) -/

/-- The two fields of `KernelArgs` that kernel.cpp reads; the full layout
lives in common/kernel_args.h outside the visible sources. `runtimeArgs` is
the (possibly null) pointer to the session. -/
structure KernelArgs where
  runtimeArgs : Option Nat
deriving DecidableEq

/-- `StaticTileFwkBackendKernelServer` (kernel.cpp lines 10-17): -1 on a null
argument, otherwise 0. -/
def StaticTileFwkBackendKernelServer (arg : Option KernelArgs) : Int :=
  match arg with
  | none => -1
  | some _ => 0

/-- `DynTileFwkBackendKernelServerInit` (kernel.cpp lines 30-39): -1 on a
null argument, otherwise 0. The `InitLogSwitch` call touches only logging
state, which is not session or device state, and is not modelled. -/
def DynTileFwkBackendKernelServerInit (arg : Option KernelArgs) : Int :=
  match arg with
  | none => -1
  | some _ => 0

/-- `DynTileFwkBackendKernelServer` (kernel.cpp lines 52-76): -1 on a null
argument or a null `runtimeArgs`, otherwise the return code of
`AicpuExecute` on the session (aicpu_executor.cpp is outside the visible
sources, so the executor is a parameter). -/
def DynTileFwkBackendKernelServer (arg : Option KernelArgs)
    (execute : Nat → Int) : Int :=
  match arg with
  | none => -1
  | some kargs =>
    match kargs.runtimeArgs with
    | none => -1
    | some rt => execute rt

/-! ## Helper lemmas -/

/-- The split tick computation equals the flooring division of the full
nanosecond product. -/
theorem get_sys_cnt_exact (freq n : Nat) :
    get_sys_cnt_aicpu freq n = n * freq / kNsPerSec := by
  have key : n * freq = n % kNsPerSec * freq + n / kNsPerSec * freq * kNsPerSec := by
    conv_lhs => rw [← Nat.div_add_mod n kNsPerSec]
    ring
  have hpos : 0 < kNsPerSec := by norm_num [kNsPerSec]
  rw [get_sys_cnt_aicpu, key, Nat.add_mul_div_right _ _ hpos]
  omega

/-- An index holding a value absent from the right part of an append lies in
the left part. -/
theorem index_in_left {X Y : List RunEvent} {a : RunEvent} {i : Nat}
    (hi : i < (X ++ Y).length) (hget : (X ++ Y).get ⟨i, hi⟩ = a)
    (haY : a ∉ Y) : i < X.length := by
  by_contra hc
  push_neg at hc
  have hlt : i - X.length < Y.length := by
    have := hi; simp only [List.length_append] at this; omega
  have heq := @List.get_append_right RunEvent i X Y hc hi hlt
  rw [heq] at hget
  exact haY (hget ▸ List.get_mem _ _ _)

/-- An index holding a value absent from the left part of an append lies in
the right part. -/
theorem index_in_right {X Y : List RunEvent} {b : RunEvent} {j : Nat}
    (hj : j < (X ++ Y).length) (hget : (X ++ Y).get ⟨j, hj⟩ = b)
    (hbX : b ∉ X) : X.length ≤ j := by
  by_contra hc
  push_neg at hc
  have heq := @List.get_append_left RunEvent j X Y hc hj
  rw [heq] at hget
  exact hbX (hget ▸ List.get_mem _ _ _)

/-- If `b` does not occur in the left part and `a` does not occur in the
right part of an append, every `a` is issued before every `b`. -/
theorem allBefore_append {X Y : List RunEvent} {a b : RunEvent}
    (hbX : b ∉ X) (haY : a ∉ Y) : allBefore (X ++ Y) a b := by
  intro i j hi hj hia hjb
  have h1 := index_in_left hi hia haY
  have h2 := index_in_right hj hjb hbX
  omega

/-- Monotonicity of the exact tick conversion in the elapsed time. -/
theorem get_sys_cnt_mono (freq : Nat) {n1 n2 : Nat} (h : n1 ≤ n2) :
    get_sys_cnt_aicpu freq n1 ≤ get_sys_cnt_aicpu freq n2 := by
  rw [get_sys_cnt_exact, get_sys_cnt_exact]
  exact Nat.div_le_div_right (Nat.mul_le_mul_right _ h)

/-- Under the range hypotheses the 64-bit machine computation performs no
reduction, hence agrees with the exact computation. -/
theorem get_sys_cnt64_agrees (freq n : Nat) (hn : n < U64)
    (hfreq : kNsPerSec * freq < U64) (htot : n * freq / kNsPerSec < U64) :
    get_sys_cnt_aicpu64 freq n = get_sys_cnt_aicpu freq n := by
  have hpos : 0 < kNsPerSec := by norm_num [kNsPerSec]
  have hsplit : n * freq / kNsPerSec =
      n / kNsPerSec * freq + n % kNsPerSec * freq / kNsPerSec := by
    rw [← get_sys_cnt_exact]; rfl
  have hrem : n % kNsPerSec * freq < U64 := by
    calc n % kNsPerSec * freq ≤ kNsPerSec * freq :=
          Nat.mul_le_mul_right _ (Nat.le_of_lt (Nat.mod_lt _ hpos))
      _ < U64 := hfreq
  have hsum : n / kNsPerSec * freq + n % kNsPerSec * freq / kNsPerSec < U64 := by
    rw [← hsplit]; exact htot
  have hsec : n / kNsPerSec * freq < U64 :=
    Nat.lt_of_le_of_lt (Nat.le_add_right _ _) hsum
  rw [get_sys_cnt_aicpu64, get_sys_cnt_aicpu, Nat.mod_eq_of_lt hn,
    Nat.mod_eq_of_lt hsec, Nat.mod_eq_of_lt hrem, Nat.mod_eq_of_lt hsum]

/-- N-fold repetition of `ensure_device_set` with the same device id. -/
def ensure_device_set_iter (s : DeviceRunner) (device_id : Int) : Nat → DeviceRunner
  | 0 => s
  | n + 1 => ((ensure_device_set_iter s device_id n).ensure_device_set device_id).2

/-- On a state whose device is already set, `ensure_device_set` returns
success and changes nothing. -/
theorem ensure_device_set_of_set {s : DeviceRunner} (h : s.device_set = true)
    (d : Int) : s.ensure_device_set d = (0, s) := by
  simp [DeviceRunner.ensure_device_set, h]

/-- After `ensure_device_set` the device is set. -/
theorem ensure_device_set_sets (s : DeviceRunner) (d : Int) :
    ((s.ensure_device_set d).2).device_set = true := by
  by_cases h : s.device_set <;> simp [DeviceRunner.ensure_device_set, h]

/-- No launch, synchronization, or release event occurs among the lazy
setup events of a run. -/
theorem run_setup_events_members (b1 b2 : Bool) :
    RunEvent.launch_ctrl_init ∉ run_setup_events b1 b2 ∧
    RunEvent.launch_ctrl_main ∉ run_setup_events b1 b2 ∧
    RunEvent.launch_compute ∉ run_setup_events b1 b2 ∧
    RunEvent.sync_queues ∉ run_setup_events b1 b2 ∧
    RunEvent.free_work_descriptor ∉ run_setup_events b1 b2 := by
  cases b1 <;> cases b2 <;> simp [run_setup_events]

/-- A value different from the repeated element does not occur in a
`replicate`. -/
theorem not_mem_replicate {a b : RunEvent} (h : a ≠ b) (n : Nat) :
    a ∉ List.replicate n b := by
  simp [List.mem_replicate]
  intro _
  exact h

/-! ## Claim theorems -/

/-- C9: the tick counter of the simulated backend is non-decreasing in the elapsed
time, converts `n` elapsed nanoseconds to exactly
`n * PLATFORM_PROF_SYS_CNT_FREQ / 10^9` ticks, and the split into whole
seconds and a remainder makes the 64-bit machine computation agree with that
exact value whenever the frequency and the produced tick count are within
64-bit range. -/
theorem sim_tick_counter_correct (freq n1 n2 : Nat) (h12 : n1 ≤ n2)
    (hn2 : n2 < U64) (hfreq : kNsPerSec * freq < U64)
    (htot : n2 * freq / kNsPerSec < U64) :
    get_sys_cnt_aicpu freq n1 ≤ get_sys_cnt_aicpu freq n2 ∧
    get_sys_cnt_aicpu freq n1 = n1 * freq / kNsPerSec ∧
    get_sys_cnt_aicpu freq n2 = n2 * freq / kNsPerSec ∧
    get_sys_cnt_aicpu64 freq n1 = get_sys_cnt_aicpu freq n1 ∧
    get_sys_cnt_aicpu64 freq n2 = get_sys_cnt_aicpu freq n2 := by
  have hmono := get_sys_cnt_mono freq h12
  have hn1 : n1 < U64 := Nat.lt_of_le_of_lt h12 hn2
  have htot1 : n1 * freq / kNsPerSec < U64 :=
    Nat.lt_of_le_of_lt (Nat.div_le_div_right (Nat.mul_le_mul_right _ h12)) htot
  exact ⟨hmono, get_sys_cnt_exact freq n1, get_sys_cnt_exact freq n2,
    get_sys_cnt64_agrees freq n1 hn1 hfreq htot1,
    get_sys_cnt64_agrees freq n2 hn2 hfreq htot⟩

/-- Witness for C9 at a 50 MHz counter frequency: one and two-and-a-half
seconds of elapsed time. -/
theorem sim_tick_counter_correct_witness :
    get_sys_cnt_aicpu 50000000 1000000000 ≤ get_sys_cnt_aicpu 50000000 2500000000 ∧
    get_sys_cnt_aicpu64 50000000 2500000000 = get_sys_cnt_aicpu 50000000 2500000000 := by
  have h := sim_tick_counter_correct 50000000 1000000000 2500000000
    (by norm_num) (by norm_num [U64]) (by norm_num [kNsPerSec, U64])
    (by norm_num [kNsPerSec, U64])
  exact ⟨h.1, h.2.2.2.2⟩

/-- C7: `clean_cache` clears the function-id-to-address map, the
binaries-loaded flag and the kernel-binary allocations, and leaves the
device-set state, the device id, both execution queues, the effect counters,
and the non-kernel allocations of the allocator unchanged. -/
theorem clean_cache_clears_and_preserves (s : DeviceRunner) :
    ((s.clean_cache).2.func_id_to_addr = [] ∧
      (s.clean_cache).2.binaries_loaded = false ∧
      (s.clean_cache).2.mem_alloc.kernel_allocs = []) ∧
    ((s.clean_cache).2.device_set = s.device_set ∧
      (s.clean_cache).2.device_id = s.device_id ∧
      (s.clean_cache).2.stream_aicpu = s.stream_aicpu ∧
      (s.clean_cache).2.stream_aicore = s.stream_aicore ∧
      (s.clean_cache).2.device_set_count = s.device_set_count ∧
      (s.clean_cache).2.queue_create_count = s.queue_create_count ∧
      (s.clean_cache).2.mem_alloc.other_allocs = s.mem_alloc.other_allocs ∧
      (s.clean_cache).2.mem_alloc.next_addr = s.mem_alloc.next_addr) := by
  simp [DeviceRunner.clean_cache]

/-- C8: calling `upload_kernel_binary` before `ensure_device_set` has
executed returns the failure value 0 — never a usable device address — and
performs no state change, so the caller error is reported rather than
silently absorbed into a successful-looking result. -/
theorem upload_before_device_set_fails (s : DeviceRunner) (func_id : Int)
    (bin : List Nat) (h : s.device_set = false) :
    s.upload_kernel_binary func_id bin = (0, s) := by
  simp [DeviceRunner.upload_kernel_binary, h]

/-- Witness for C8 on the initial session state. -/
theorem upload_before_device_set_fails_witness :
    DeviceRunner.upload_kernel_binary {} 0 [1, 2, 3] = (0, ({} : DeviceRunner)) :=
  upload_before_device_set_fails {} 0 [1, 2, 3] rfl

/-- C6: `ensure_device_set` is idempotent — N calls with the same device id
(N ≥ 1) leave the same state as one call; the first call from an unset state
performs exactly one device selection and one queue-pair creation, and every
call on an already-set state changes nothing. -/
theorem ensure_device_set_idempotent (s : DeviceRunner) (d : Int) (n : Nat)
    (hn : 1 ≤ n) :
    ensure_device_set_iter s d n = ensure_device_set_iter s d 1 ∧
    (s.device_set = false →
      (ensure_device_set_iter s d n).device_set_count = s.device_set_count + 1 ∧
      (ensure_device_set_iter s d n).queue_create_count = s.queue_create_count + 1 ∧
      (ensure_device_set_iter s d n).device_id = d) ∧
    (s.device_set = true → ensure_device_set_iter s d n = s) := by
  have hone : ∀ m : Nat, 1 ≤ m → ensure_device_set_iter s d m =
      ensure_device_set_iter s d 1 := by
    intro m hm
    induction m with
    | zero => omega
    | succ k ih =>
      rcases Nat.eq_zero_or_pos k with hk | hk
      · subst hk; rfl
      · have hstep : ensure_device_set_iter s d (k + 1) =
            ((ensure_device_set_iter s d k).ensure_device_set d).2 := rfl
        rw [hstep, ih hk]
        have h1 : ensure_device_set_iter s d 1 = (s.ensure_device_set d).2 := rfl
        rw [h1, ensure_device_set_of_set (ensure_device_set_sets s d) d]
  refine ⟨hone n hn, ?_, ?_⟩
  · intro hunset
    rw [hone n hn]
    have h1 : ensure_device_set_iter s d 1 = (s.ensure_device_set d).2 := rfl
    rw [h1]
    simp [DeviceRunner.ensure_device_set, hunset]
  · intro hset
    rw [hone n hn]
    have h1 : ensure_device_set_iter s d 1 = (s.ensure_device_set d).2 := rfl
    rw [h1, ensure_device_set_of_set hset d]

/-- Witness for C6: five calls on the initial state coincide with one. -/
theorem ensure_device_set_idempotent_witness :
    ensure_device_set_iter {} 3 5 = ensure_device_set_iter {} 3 1 :=
  (ensure_device_set_idempotent {} 3 5 (by norm_num)).1

/-- C3: within one binaries-loaded epoch, a second `upload_kernel_binary`
with the same `func_id` returns exactly the address of the first upload and
changes nothing — in particular no second device copy — even when the
supplied bytes differ; when the id was not previously bound, the pair of
calls performs exactly one device copy. -/
theorem upload_kernel_binary_cached (s : DeviceRunner) (func_id : Int)
    (b1 b2 : List Nat) (h : s.device_set = true) :
    ((s.upload_kernel_binary func_id b1).2.upload_kernel_binary func_id b2).1
      = (s.upload_kernel_binary func_id b1).1 ∧
    ((s.upload_kernel_binary func_id b1).2.upload_kernel_binary func_id b2).2
      = (s.upload_kernel_binary func_id b1).2 ∧
    (s.func_id_to_addr.lookup func_id = none →
      (s.upload_kernel_binary func_id b1).2.copy_count = s.copy_count + 1) := by
  cases hl : s.func_id_to_addr.lookup func_id with
  | some addr =>
    refine ⟨?_, ?_, fun hc => absurd hc (by simp [hl])⟩ <;>
      simp [DeviceRunner.upload_kernel_binary, h, hl]
  | none =>
    have hfst : s.upload_kernel_binary func_id b1 =
        (s.mem_alloc.next_addr,
          { s with
            mem_alloc := (s.mem_alloc.alloc_kernel b1.length).2
            func_id_to_addr := (func_id, s.mem_alloc.next_addr) :: s.func_id_to_addr
            copy_count := s.copy_count + 1 }) := by
      simp [DeviceRunner.upload_kernel_binary, h, hl, MemoryAllocator.alloc_kernel]
    refine ⟨?_, ?_, fun _ => by rw [hfst]⟩ <;>
      rw [hfst] <;>
      simp [DeviceRunner.upload_kernel_binary, h, List.lookup]

/-- Witness for C3: two uploads of function id 1 with different bytes on a
device-set state. -/
theorem upload_kernel_binary_cached_witness :
    (((DeviceRunner.ensure_device_set {} 0).2.upload_kernel_binary 1 [7]).2.upload_kernel_binary
        1 [8, 9]).1
      = ((DeviceRunner.ensure_device_set {} 0).2.upload_kernel_binary 1 [7]).1 ∧
    ((DeviceRunner.ensure_device_set {} 0).2.upload_kernel_binary 1 [7]).2.copy_count
      = (DeviceRunner.ensure_device_set {} 0).2.copy_count + 1 := by
  have h := upload_kernel_binary_cached (DeviceRunner.ensure_device_set {} 0).2
    1 [7] [8, 9] (by decide)
  exact ⟨h.1, h.2.2 (by decide)⟩

/-- C4: every embedded entry point rejects a null session/argument pointer —
and the copy entry points a null buffer pointer — with the failure status -1
(and no exception), for every possible body and starting state, leaving the
state untouched. -/
theorem null_inputs_rejected :
    (∀ (σ : Type) (body : σ → Except Unit Int × σ) (s : σ),
      init_runtime none body s = (Except.ok (-1), s) ∧
      launch_runtime none body s = (Except.ok (-1), s)) ∧
    (∀ (v : Except Unit Int) (s : DeviceRunner),
      finalize_runtime none v s = (Except.ok (-1), s, [])) ∧
    (∀ (σ : Type) (p q : Option Nat) (sz : Nat)
        (body : σ → Except Unit Int × σ) (s : σ),
      copy_to_device none p sz body s = (Except.ok (-1), s) ∧
      copy_to_device q none sz body s = (Except.ok (-1), s) ∧
      copy_from_device none p sz body s = (Except.ok (-1), s) ∧
      copy_from_device q none sz body s = (Except.ok (-1), s)) ∧
    (StaticTileFwkBackendKernelServer none = -1 ∧
      DynTileFwkBackendKernelServerInit none = -1) ∧
    (∀ execute : Nat → Int,
      DynTileFwkBackendKernelServer none execute = -1 ∧
      DynTileFwkBackendKernelServer (some ⟨none⟩) execute = -1) ∧
    (∀ e : Int, enable_runtime_profiling none e = (-1, none)) := by
  refine ⟨fun σ body s => ⟨rfl, rfl⟩, fun v s => rfl, ?_, ⟨rfl, rfl⟩,
    fun execute => ⟨rfl, rfl⟩, fun e => rfl⟩
  intro σ p q sz body s
  refine ⟨rfl, ?_, rfl, ?_⟩ <;> cases q <;> rfl

/-- C5 counterexample: `record_tensor_pair` has no try/catch around its call
into `Runtime::record_tensor_pair`, so with a non-null session a body that
raises an internal fault lets that fault cross the C boundary unconverted,
contradicting the claim that every entry point converts or swallows it. -/
theorem record_tensor_pair_fault_crosses :
    (@record_tensor_pair DeviceRunner (some 1)
        (fun s => (Except.error (), s)) {}).1 = Except.error () := rfl

/-- C5 (amended): every embedded C API entry point except
`record_tensor_pair` converts an internal fault of its body into a status
code (-1, 0, or a null pointer) and never lets it cross the boundary;
`record_tensor_pair` converts nothing: on a null session it returns silently,
and otherwise it forwards the outcome of its body — exception included —
unchanged. -/
theorem faults_converted_at_boundary :
    (∀ (σ : Type) (rt : Option Nat) (body : σ → Except Unit Int × σ) (s : σ),
      (∃ v s1, init_runtime rt body s = (Except.ok v, s1)) ∧
      (∃ v s1, launch_runtime rt body s = (Except.ok v, s1))) ∧
    (∀ (σ : Type) (body : σ → Except Unit (Option Nat) × σ) (s : σ),
      ∃ v s1, device_malloc body s = (Except.ok v, s1)) ∧
    (∀ (σ : Type) (p : Option Nat) (body : σ → Except Unit Unit × σ) (s : σ),
      ∃ s1, device_free p body s = (Except.ok (), s1)) ∧
    (∀ (σ : Type) (p q : Option Nat) (sz : Nat)
        (body : σ → Except Unit Int × σ) (s : σ),
      (∃ v s1, copy_to_device p q sz body s = (Except.ok v, s1)) ∧
      (∃ v s1, copy_from_device p q sz body s = (Except.ok v, s1))) ∧
    (∀ (σ : Type) (fid : Int) (body : σ → Except Unit Nat × σ) (s : σ),
      ∃ v s1, upload_kernel_binary_wrapper fid body s = (Except.ok v, s1)) ∧
    (∀ (rt : Option Nat) (v : Except Unit Int) (s : DeviceRunner),
      ∃ rc, (finalize_runtime rt v s).1 = Except.ok rc) ∧
    (∀ d : Int, set_device d = 0) ∧
    (∀ (rt : Option Bool) (e : Int),
      (enable_runtime_profiling rt e).1 = -1 ∨
        (enable_runtime_profiling rt e).1 = 0) ∧
    (∀ (σ : Type) (body : σ → Except Unit Unit × σ) (s : σ),
      record_tensor_pair none body s = (Except.ok (), s) ∧
      ∀ rt : Nat, record_tensor_pair (some rt) body s = body s) := by
  refine ⟨?_, ?_, ?_, ?_, ?_, ?_, fun d => rfl, ?_, ?_⟩
  · intro σ rt body s
    constructor <;> cases rt <;>
      first
        | exact ⟨-1, s, rfl⟩
        | · rcases hb : body s with ⟨e, s1⟩
            cases e with
            | ok rc => exact ⟨rc, s1, by simp [init_runtime, launch_runtime, hb]⟩
            | error u => exact ⟨-1, s1, by simp [init_runtime, launch_runtime, hb]⟩
  · intro σ body s
    rcases hb : body s with ⟨e, s1⟩
    cases e with
    | ok p => exact ⟨p, s1, by simp [device_malloc, hb]⟩
    | error u => exact ⟨none, s1, by simp [device_malloc, hb]⟩
  · intro σ p body s
    cases p with
    | none => exact ⟨s, rfl⟩
    | some q =>
      rcases hb : body s with ⟨e, s1⟩
      cases e with
      | ok u => exact ⟨s1, by simp [device_free, hb]⟩
      | error u => exact ⟨s1, by simp [device_free, hb]⟩
  · intro σ p q sz body s
    constructor <;> cases p <;> cases q <;>
      first
        | exact ⟨-1, s, rfl⟩
        | · rcases hb : body s with ⟨e, s1⟩
            cases e with
            | ok rc => exact ⟨rc, s1, by simp [copy_to_device, copy_from_device, hb]⟩
            | error u => exact ⟨-1, s1, by simp [copy_to_device, copy_from_device, hb]⟩
  · intro σ fid body s
    rcases hb : body s with ⟨e, s1⟩
    cases e with
    | ok a => exact ⟨a, s1, by simp [upload_kernel_binary_wrapper, hb]⟩
    | error u => exact ⟨0, s1, by simp [upload_kernel_binary_wrapper, hb]⟩
  · intro rt v s
    cases rt with
    | none => exact ⟨-1, rfl⟩
    | some p =>
      cases v with
      | ok rc => exact ⟨rc, rfl⟩
      | error u => exact ⟨-1, rfl⟩
  · intro rt e
    cases rt with
    | none => exact Or.inl rfl
    | some b => exact Or.inr rfl
  · intro σ body s
    exact ⟨rfl, fun rt => rfl⟩

/-- C2: on a non-null session, `finalize_runtime` performs validation,
`clean_cache`, full `DeviceRunner` teardown and session destruction, in that
order, from any starting session state — in particular from any state a
failed run left behind; the teardown leaves the pristine state with the
last-session reference cleared, and a repeated finalize on the already-torn-
down state is equally well-defined with the same result, so no double free
or stale session dereference occurs. -/
theorem finalize_session_teardown (p : Nat) (rc : Int) (s : DeviceRunner) :
    finalize_runtime (some p) (Except.ok rc) s =
      (Except.ok rc, ({} : DeviceRunner),
        [FinalizeEvent.validate, FinalizeEvent.clean_cache,
          FinalizeEvent.runner_finalize, FinalizeEvent.destruct_session]) ∧
    (finalize_runtime (some p) (Except.ok rc) s).2.1.last_runtime = none ∧
    (∀ rc2 : Int,
      finalize_runtime (some p) (Except.ok rc2)
          (finalize_runtime (some p) (Except.ok rc) s).2.1 =
        (Except.ok rc2, ({} : DeviceRunner),
          [FinalizeEvent.validate, FinalizeEvent.clean_cache,
            FinalizeEvent.runner_finalize, FinalizeEvent.destruct_session])) := by
  exact ⟨rfl, rfl, fun rc2 => rfl⟩

/-- C10: the status returned by `finalize_runtime` on a non-null session is
exactly the validation result — whatever integer statuses the `clean_cache`
and `finalize` steps return are discarded — while a fault in the sequence
yields -1, as does a null session. -/
theorem finalize_status_is_validation :
    (∀ (p : Nat) (rc : Int) (clean fin : DeviceRunner → Int × DeviceRunner)
        (s : DeviceRunner),
      (finalize_runtime_with (some p) (Except.ok rc) clean fin s).1 =
        Except.ok rc) ∧
    (∀ (p : Nat) (clean fin : DeviceRunner → Int × DeviceRunner)
        (s : DeviceRunner),
      (finalize_runtime_with (some p) (Except.error ()) clean fin s).1 =
        Except.ok (-1)) ∧
    (∀ (v : Except Unit Int) (clean fin : DeviceRunner → Int × DeviceRunner)
        (s : DeviceRunner),
      (finalize_runtime_with none v clean fin s).1 = Except.ok (-1)) :=
  ⟨fun _ _ _ _ _ => rfl, fun _ _ _ _ => rfl, fun _ _ _ _ => rfl⟩

/-- Shape of every run trace: lazy setup events, then handshake
initialization, work-descriptor transfer, the control-core launches, the
compute-core launch, telemetry polling, queue synchronization, and the
work-descriptor release. -/
def full_trace (E : List RunEvent) (n : Nat) : List RunEvent :=
  E ++
    [RunEvent.init_handshake, RunEvent.copy_work_descriptor,
      RunEvent.launch_ctrl_init] ++
    List.replicate n RunEvent.launch_ctrl_main ++
    [RunEvent.launch_compute, RunEvent.poll_telemetry, RunEvent.sync_queues,
      RunEvent.free_work_descriptor]

/-- A run trace is a `full_trace` over its setup events. -/
theorem run_trace_shape (s : DeviceRunner) (rt : Nat) (bd did : Int)
    (so bin : List Nat) (n : Nat) :
    run_trace s rt bd did so bin n =
      full_trace
        (run_setup_events s.device_set
          ((s.ensure_device_set did).2).binaries_loaded) n := rfl

/-- Non-membership distributes over an append. -/
theorem notMem_append {a : RunEvent} {X Y : List RunEvent} (hX : a ∉ X)
    (hY : a ∉ Y) : a ∉ X ++ Y := by
  simp [List.mem_append]
  exact ⟨hX, hY⟩

/-- The issue orderings of a `full_trace` whose setup part contains neither
launch, synchronization, nor release events. -/
theorem full_trace_order (E : List RunEvent) (n : Nat)
    (hEm : RunEvent.launch_ctrl_main ∉ E)
    (hEc : RunEvent.launch_compute ∉ E)
    (hEs : RunEvent.sync_queues ∉ E)
    (hEf : RunEvent.free_work_descriptor ∉ E) :
    allBefore (full_trace E n) RunEvent.launch_ctrl_init
      RunEvent.launch_ctrl_main ∧
    allBefore (full_trace E n) RunEvent.launch_ctrl_main
      RunEvent.launch_compute ∧
    allBefore (full_trace E n) RunEvent.launch_ctrl_init
      RunEvent.sync_queues ∧
    allBefore (full_trace E n) RunEvent.launch_ctrl_main
      RunEvent.sync_queues ∧
    allBefore (full_trace E n) RunEvent.launch_compute
      RunEvent.sync_queues ∧
    allBefore (full_trace E n) RunEvent.sync_queues
      RunEvent.free_work_descriptor := by
  have hsplit1 : full_trace E n =
      (E ++ [RunEvent.init_handshake, RunEvent.copy_work_descriptor,
        RunEvent.launch_ctrl_init]) ++
      (List.replicate n RunEvent.launch_ctrl_main ++
        [RunEvent.launch_compute, RunEvent.poll_telemetry,
          RunEvent.sync_queues, RunEvent.free_work_descriptor]) := by
    simp [full_trace, List.append_assoc]
  have hsplit2 : full_trace E n =
      ((E ++ [RunEvent.init_handshake, RunEvent.copy_work_descriptor,
        RunEvent.launch_ctrl_init]) ++
        List.replicate n RunEvent.launch_ctrl_main) ++
      [RunEvent.launch_compute, RunEvent.poll_telemetry,
        RunEvent.sync_queues, RunEvent.free_work_descriptor] := by
    simp [full_trace, List.append_assoc]
  have hsplit3 : full_trace E n =
      (((E ++ [RunEvent.init_handshake, RunEvent.copy_work_descriptor,
        RunEvent.launch_ctrl_init]) ++
        List.replicate n RunEvent.launch_ctrl_main) ++
        [RunEvent.launch_compute]) ++
      [RunEvent.poll_telemetry, RunEvent.sync_queues,
        RunEvent.free_work_descriptor] := by
    simp [full_trace, List.append_assoc]
  have hsplit4 : full_trace E n =
      (((E ++ [RunEvent.init_handshake, RunEvent.copy_work_descriptor,
        RunEvent.launch_ctrl_init]) ++
        List.replicate n RunEvent.launch_ctrl_main) ++
        [RunEvent.launch_compute, RunEvent.poll_telemetry,
          RunEvent.sync_queues]) ++
      [RunEvent.free_work_descriptor] := by
    simp [full_trace, List.append_assoc]
  refine ⟨?_, ?_, ?_, ?_, ?_, ?_⟩
  · rw [hsplit1]
    exact allBefore_append (notMem_append hEm (by decide))
      (notMem_append (not_mem_replicate (by decide) n) (by decide))
  · rw [hsplit2]
    exact allBefore_append
      (notMem_append (notMem_append hEc (by decide))
        (not_mem_replicate (by decide) n))
      (by decide)
  · rw [hsplit1]
    exact allBefore_append (notMem_append hEs (by decide))
      (notMem_append (not_mem_replicate (by decide) n) (by decide))
  · rw [hsplit2]
    exact allBefore_append
      (notMem_append (notMem_append hEs (by decide))
        (not_mem_replicate (by decide) n))
      (by decide)
  · rw [hsplit3]
    exact allBefore_append
      (notMem_append
        (notMem_append (notMem_append hEs (by decide))
          (not_mem_replicate (by decide) n))
        (by decide))
      (by decide)
  · rw [hsplit4]
    exact allBefore_append
      (notMem_append
        (notMem_append (notMem_append hEf (by decide))
          (not_mem_replicate (by decide) n))
        (by decide))
      (by decide)

/-- C1: in every invocation of `run`, the control-core "init" launch is
issued before every control-core "main" launch, every "main" launch before
the compute-core launch, every launch before queue synchronization, and the
transient work-descriptor release after synchronization; those events all
occur in the trace, and the state afterwards keeps the session-level
resources — both streams, the loaded binaries, the function-id map, the
kernel allocations — while the transient work-descriptor memory is
released. -/
theorem run_issue_order (s : DeviceRunner) (rt : Nat) (bd did : Int)
    (so bin : List Nat) (n : Nat) (hn : 1 ≤ n)
    (hwf : s.device_set = true →
      s.stream_aicpu.isSome = true ∧ s.stream_aicore.isSome = true) :
    (allBefore (run_trace s rt bd did so bin n) RunEvent.launch_ctrl_init
        RunEvent.launch_ctrl_main ∧
      allBefore (run_trace s rt bd did so bin n) RunEvent.launch_ctrl_main
        RunEvent.launch_compute ∧
      allBefore (run_trace s rt bd did so bin n) RunEvent.launch_ctrl_init
        RunEvent.sync_queues ∧
      allBefore (run_trace s rt bd did so bin n) RunEvent.launch_ctrl_main
        RunEvent.sync_queues ∧
      allBefore (run_trace s rt bd did so bin n) RunEvent.launch_compute
        RunEvent.sync_queues ∧
      allBefore (run_trace s rt bd did so bin n) RunEvent.sync_queues
        RunEvent.free_work_descriptor) ∧
    (RunEvent.launch_ctrl_init ∈ run_trace s rt bd did so bin n ∧
      RunEvent.launch_ctrl_main ∈ run_trace s rt bd did so bin n ∧
      RunEvent.launch_compute ∈ run_trace s rt bd did so bin n ∧
      RunEvent.sync_queues ∈ run_trace s rt bd did so bin n ∧
      RunEvent.free_work_descriptor ∈ run_trace s rt bd did so bin n) ∧
    ((run_state s rt bd did so bin n).mem_alloc.other_allocs =
        s.mem_alloc.other_allocs ∧
      (run_state s rt bd did so bin n).stream_aicpu.isSome = true ∧
      (run_state s rt bd did so bin n).stream_aicore.isSome = true ∧
      (run_state s rt bd did so bin n).binaries_loaded = true ∧
      (run_state s rt bd did so bin n).func_id_to_addr = s.func_id_to_addr ∧
      (run_state s rt bd did so bin n).mem_alloc.kernel_allocs =
        s.mem_alloc.kernel_allocs) := by
  have hE := run_setup_events_members s.device_set
    ((s.ensure_device_set did).2).binaries_loaded
  refine ⟨?_, ?_, ?_⟩
  · rw [run_trace_shape]
    exact full_trace_order _ n hE.2.1 hE.2.2.1 hE.2.2.2.1 hE.2.2.2.2
  · rw [run_trace_shape]
    refine ⟨by simp [full_trace], ?_, by simp [full_trace], by simp [full_trace],
      by simp [full_trace]⟩
    simp [full_trace, List.mem_replicate]
    omega
  · by_cases hd : s.device_set
    · simp [run_state, DeviceRunner.run, DeviceRunner.ensure_device_set,
        MemoryAllocator.alloc_other, MemoryAllocator.free_other, hd,
        List.erase_cons_head, hwf hd]
    · simp [run_state, DeviceRunner.run, DeviceRunner.ensure_device_set,
        MemoryAllocator.alloc_other, MemoryAllocator.free_other, hd,
        List.erase_cons_head]

/-- Witness for C1: a run of one control-core worker on the initial session
state. -/
theorem run_issue_order_witness :
    RunEvent.launch_ctrl_main ∈ run_trace {} 0 1 0 [] [] 1 ∧
    (run_state {} 0 1 0 [] [] 1).binaries_loaded = true :=
  have h := run_issue_order {} 0 1 0 [] [] 1 (by norm_num) (by intro h; cases h)
  ⟨h.2.1.2.1, h.2.2.2.2.2.1⟩

end Simpler
